import Mathlib

/-
Verification development for the ASDA-X DAG execution engine
(src/core: node_interface.py, dag_engine.py, replay_trace.py,
trace_logger.py, orchestrator_api.py).

Python values that flow through the engine are JSON-like; we embed them
as the inductive `JVal`.  Wall-clock times, generated UUIDs and other
nondeterministic inputs are passed as explicit parameters.  Machine-level
concerns (threads, sockets, files) are modelled as explicit state:
the file store is a list of (trace_id, record) pairs.
-/

namespace Asda

/-- JSON-like Python values (dict insertion order is preserved, as in
Python 3.7+ and pydantic). -/
inductive JVal where
  | null
  | bool (b : Bool)
  | num (n : Int)
  | str (s : String)
  | arr (xs : List JVal)
  | obj (kvs : List (String × JVal))

/-- Minimal JSON string quoting (escapes backslash and double quote;
all strings appearing in this development are plain ASCII). -/
def quoteStr (s : String) : String :=
  "\"" ++ String.join (s.data.map fun c =>
    if c = '"' then "\\\"" else if c = '\\' then "\\\\" else String.singleton c) ++ "\""

mutual

/-- Compact JSON serialization in the order keys are stored — this is what
pydantic `model_dump_json()` produces for a model instance: fields in
declaration order, separators without whitespace. -/
def serJVal : JVal → String
  | .null => "null"
  | .bool true => "true"
  | .bool false => "false"
  | .num n => toString n
  | .str s => quoteStr s
  | .arr xs => "[" ++ serArr xs ++ "]"
  | .obj kvs => "\x7b" ++ serObj kvs ++ "\x7d"

def serArr : List JVal → String
  | [] => ""
  | [x] => serJVal x
  | x :: y :: xs => serJVal x ++ "," ++ serArr (y :: xs)

def serObj : List (String × JVal) → String
  | [] => ""
  | [(k, v)] => quoteStr k ++ ":" ++ serJVal v
  | (k, v) :: p :: kvs => quoteStr k ++ ":" ++ serJVal v ++ "," ++ serObj (p :: kvs)

end

/-- Lexicographic comparison of character lists by Unicode code point. -/
def charListLe : List Char → List Char → Bool
  | [], _ => true
  | _ :: _, [] => false
  | c :: cs, d :: ds =>
    if c.toNat < d.toNat then true
    else if d.toNat < c.toNat then false
    else charListLe cs ds

/-- String comparison by Unicode code points (Python string ordering). -/
def strLeB (a b : String) : Bool := charListLe a.data b.data

/-- Insert a key/value pair into a key-sorted association list
(ordering by Unicode code points, as `json.dumps(..., sort_keys=True)`). -/
def insertKV (p : String × JVal) : List (String × JVal) → List (String × JVal)
  | [] => [p]
  | q :: rest => if strLeB p.1 q.1 then p :: q :: rest else q :: insertKV p rest

/-- Insertion sort of object keys. -/
def sortKV : List (String × JVal) → List (String × JVal)
  | [] => []
  | p :: rest => insertKV p (sortKV rest)

mutual

/-- Modelled from the spec: recursively sort the keys of every object — the
"canonical JSON" of the spec glossary ("sorted object keys, no
insignificant whitespace").  The repository has no canonical-JSON
serializer of its own; this definition follows the words of the spec and is
used only to compare against what the code actually hashes. -/
def canonJVal : JVal → JVal
  | .null => .null
  | .bool b => .bool b
  | .num n => .num n
  | .str s => .str s
  | .arr xs => .arr (canonArr xs)
  | .obj kvs => .obj (sortKV (canonObj kvs))

def canonArr : List JVal → List JVal
  | [] => []
  | x :: xs => canonJVal x :: canonArr xs

def canonObj : List (String × JVal) → List (String × JVal)
  | [] => []
  | (k, v) :: kvs => (k, canonJVal v) :: canonObj kvs

end

/-- Modelled from the spec: canonical JSON text of a value. -/
def canonicalJson (v : JVal) : String :=
  serJVal (canonJVal v)

/-- ASCII bytes of a string (all hashed strings in this development are
ASCII, where UTF-8 encoding coincides with code points). -/
def strBytes (s : String) : List Nat :=
  s.data.map Char.toNat

/-! ### SHA-256 (FIPS 180-4), over byte lists, word arithmetic in `Nat mod 2^32` -/

def M32 (x : Nat) : Nat := x % 4294967296

def rotr (n x : Nat) : Nat := M32 ((x >>> n) ||| (x <<< (32 - n)))

def bsig0 (x : Nat) : Nat := (rotr 2 x) ^^^ (rotr 13 x) ^^^ (rotr 22 x)

def bsig1 (x : Nat) : Nat := (rotr 6 x) ^^^ (rotr 11 x) ^^^ (rotr 25 x)

def ssig0 (x : Nat) : Nat := (rotr 7 x) ^^^ (rotr 18 x) ^^^ (x >>> 3)

def ssig1 (x : Nat) : Nat := (rotr 17 x) ^^^ (rotr 19 x) ^^^ (x >>> 10)

def chF (x y z : Nat) : Nat := (x &&& y) ^^^ ((x ^^^ 4294967295) &&& z)

def majF (x y z : Nat) : Nat := (x &&& y) ^^^ (x &&& z) ^^^ (y &&& z)

def shaK : List Nat :=
  [1116352408, 1899447441, 3049323471, 3921009573, 961987163,
   1508970993, 2453635748, 2870763221, 3624381080, 310598401,
   607225278, 1426881987, 1925078388, 2162078206, 2614888103,
   3248222580, 3835390401, 4022224774, 264347078, 604807628,
   770255983, 1249150122, 1555081692, 1996064986, 2554220882,
   2821834349, 2952996808, 3210313671, 3336571891, 3584528711,
   113926993, 338241895, 666307205, 773529912, 1294757372,
   1396182291, 1695183700, 1986661051, 2177026350, 2456956037,
   2730485921, 2820302411, 3259730800, 3345764771, 3516065817,
   3600352804, 4094571909, 275423344, 430227734, 506948616,
   659060556, 883997877, 958139571, 1322822218, 1537002063,
   1747873779, 1955562222, 2024104815, 2227730452, 2361852424,
   2428436474, 2756734187, 3204031479, 3329325298]

def shaH0 : List Nat :=
  [1779033703,
   3144134277,
   1013904242,
   2773480762,
   1359893119,
   2600822924,
   528734635,
   1541459225]

/-- Big-endian 8-byte encoding of a (64-bit) length. -/
def lenBytes (n : Nat) : List Nat :=
  [56, 48, 40, 32, 24, 16, 8, 0].map fun sh => (n >>> sh) &&& 255

/-- SHA-256 message padding. -/
def padBytes (msg : List Nat) : List Nat :=
  let len := msg.length
  let r := (len + 1) % 64
  let k := if r ≤ 56 then 56 - r else 120 - r
  msg ++ [128] ++ List.replicate k 0 ++ lenBytes (len * 8)

/-- Group bytes into big-endian 32-bit words. -/
def toWords : List Nat → List Nat
  | a :: b :: c :: d :: rest => (((a * 256 + b) * 256 + c) * 256 + d) :: toWords rest
  | _ => []

/-- Split a word list into 16-word blocks (fuel-driven structural recursion). -/
def toBlocks : Nat → List Nat → List (List Nat)
  | 0, _ => []
  | _, [] => []
  | fuel + 1, ws => ws.take 16 :: toBlocks fuel (ws.drop 16)

/-- Extend a 16-word block to the 64-word message schedule. -/
def schedule (ws : List Nat) : List Nat :=
  (List.range 48).foldl
    (fun acc j =>
      let i := j + 16
      acc ++ [M32 (ssig1 (acc.getD (i - 2) 0) + acc.getD (i - 7) 0 +
                   ssig0 (acc.getD (i - 15) 0) + acc.getD (i - 16) 0)])
    ws

structure H8 where
  a : Nat
  b : Nat
  c : Nat
  d : Nat
  e : Nat
  f : Nat
  g : Nat
  h : Nat

def compressStep (st : H8) (kw : Nat × Nat) : H8 :=
  let t1 := M32 (st.h + bsig1 st.e + chF st.e st.f st.g + kw.1 + kw.2)
  let t2 := M32 (bsig0 st.a + majF st.a st.b st.c)
  ⟨M32 (t1 + t2), st.a, st.b, st.c, M32 (st.d + t1), st.e, st.f, st.g⟩

def compressBlock (h : List Nat) (block : List Nat) : List Nat :=
  let w := schedule block
  let st0 : H8 := ⟨h.getD 0 0, h.getD 1 0, h.getD 2 0, h.getD 3 0,
                   h.getD 4 0, h.getD 5 0, h.getD 6 0, h.getD 7 0⟩
  let st := (shaK.zip w).foldl compressStep st0
  [M32 (h.getD 0 0 + st.a), M32 (h.getD 1 0 + st.b), M32 (h.getD 2 0 + st.c),
   M32 (h.getD 3 0 + st.d), M32 (h.getD 4 0 + st.e), M32 (h.getD 5 0 + st.f),
   M32 (h.getD 6 0 + st.g), M32 (h.getD 7 0 + st.h)]

/-- SHA-256 digest of a byte list, as eight 32-bit words. -/
def sha256Words (msg : List Nat) : List Nat :=
  let ws := toWords (padBytes msg)
  (toBlocks ws.length ws).foldl compressBlock shaH0

def hexDigit (n : Nat) : Char :=
  if n < 10 then Char.ofNat (48 + n) else Char.ofNat (87 + n)

def hex8 (v : Nat) : String :=
  String.mk ((List.range 8).map fun i => hexDigit ((v >>> ((7 - i) * 4)) &&& 15))

/-- Hex SHA-256 digest of a byte list — `hashlib.sha256(...).hexdigest()`. -/
def sha256hex (msg : List Nat) : String :=
  String.join ((sha256Words msg).map hex8)

/-! ### Python exceptions raised by the embedded code -/

/-- Python exception values that the embedded core can raise. -/
inductive PyErr where
  | validationError (msg : String)
  | typeError (msg : String)
  | runtimeError (msg : String)
  | valueError (msg : String)
  | attributeError (name : String)
  | fileNotFound (traceId : String)
  | indexError (msg : String)
  | exception (msg : String)
deriving DecidableEq

/-- The message carried by the exception (`str(e)`). -/
def PyErr.msg : PyErr → String
  | .validationError m => m
  | .typeError m => m
  | .runtimeError m => m
  | .valueError m => m
  | .attributeError n => n
  | .fileNotFound t => t
  | .indexError m => m
  | .exception m => m

/-- Replace the value under `k` if present, else append — Python dict
assignment `d[k] = v` (insertion order preserved), and also the effect of
rewriting file `trace_<id>.jsonl` in a keyed file store. -/
def setAssoc {α : Type} (l : List (String × α)) (k : String) (v : α) : List (String × α) :=
  match l with
  | [] => [(k, v)]
  | (k1, v1) :: rest => if k1 = k then (k, v) :: rest else (k1, v1) :: setAssoc rest k v

/-! ### src/core/replay_trace.py -/

/-- `NodeExecutionTrace`: record of a single node execution.  `timestamp`
is a wall-clock default in the source; modelled as a `Nat` defaulting
to 0 since no claim inspects it. -/
structure NodeExecutionTrace where
  node_name : String
  version : String
  input : JVal
  output : Option JVal
  status : String := "success"
  runtime_ms : Option Nat := none
  timestamp : Nat := 0
  error_msg : Option String := none

/-- `ReplayMetadata`: replay state of a trace. -/
structure ReplayMetadata where
  replay_count : Nat := 0
  source_trace_id : Option String := none
  generated_for : List String := []

/-- `TraceRecord`: container for a full DAG execution trace. -/
structure TraceRecord where
  trace_id : String
  task_name : String
  start_time : Nat := 0
  end_time : Option Nat := none
  executed_nodes : List NodeExecutionTrace := []
  replay_info : ReplayMetadata := {}

/-- The backing store of the writer (`ReplayWriter` with `use_sqlite=False`,
the configuration the orchestrator uses): `files` models the
`trace_<id>.jsonl` files keyed by trace id, `tinydb` the insertions into
`replay.json`. -/
structure ReplayStore where
  files : List (String × TraceRecord) := []
  tinydb : List TraceRecord := []

/-- `ReplayWriter.init_trace`: unconditionally replaces the current
record with a fresh one (the source has no already-active check) and
returns the id — the supplied `trace_id` or a fresh UUID (`freshUuid`,
passed explicitly).  `now` stands for the wall-clock start time. -/
def init_trace (_cur : Option TraceRecord) (suppliedId : Option String)
    (freshUuid : String) (task_name : String) (now : Nat) :
    String × Option TraceRecord :=
  let tid := suppliedId.getD freshUuid
  (tid, some { trace_id := tid, task_name := task_name, start_time := now })

/-- `ReplayWriter.record_node_output`: appends a `NodeExecutionTrace` to
the current record; raises `RuntimeError` when no trace is active. -/
def record_node_output (cur : Option TraceRecord) (node_name : String)
    (input : JVal) (output : Option JVal) (version : String)
    (status : String) (runtime_ms : Option Nat) (error_msg : Option String) :
    Except PyErr (Option TraceRecord) :=
  match cur with
  | none => .error (.runtimeError "init_trace must be called first")
  | some r =>
    .ok (some { r with executed_nodes := r.executed_nodes ++
      [{ node_name := node_name, version := version, input := input, output := output,
         status := status, runtime_ms := runtime_ms, error_msg := error_msg }] })

/-- `ReplayWriter.finalize_trace`: sets `end_time`, writes the full
record to the jsonl file (mode "w", i.e. overwriting) and inserts it
into TinyDB, clears the current record, and returns it; raises
`RuntimeError` when no trace is active. -/
def finalize_trace (cur : Option TraceRecord) (store : ReplayStore) (now : Nat) :
    Except PyErr (TraceRecord × Option TraceRecord × ReplayStore) :=
  match cur with
  | none => .error (.runtimeError "init_trace must be called first")
  | some r0 =>
    let r := { r0 with end_time := some now }
    .ok (r, none, { files := setAssoc store.files r.trace_id r, tinydb := store.tinydb ++ [r] })

/-- SQLite table `replay_trace`, rows keyed by `trace_id`. -/
structure SqliteTable where
  rows : List (String × TraceRecord)

/-- The fields `ReplayReader.__init__` assigns: `store`/`use_sqlite` and
`_conn` (set only when `use_sqlite` and the db file exists).  It never
assigns `_db` — that attribute exists only on `ReplayWriter`. -/
structure ReplayReaderS where
  use_sqlite : Bool
  conn : Option SqliteTable

/-- `ReplayReader.load`: SQL row if enabled and present, else the
`trace_<id>.jsonl` file.  When neither exists, the source then evaluates
`if self._db is not None:` — but `ReplayReader.__init__` never assigns
`_db`, so this attribute access raises `AttributeError`, and the final
`raise FileNotFoundError(trace_id)` line is unreachable. -/
def loadTrace (r : ReplayReaderS) (files : List (String × TraceRecord))
    (tid : String) : Except PyErr TraceRecord :=
  let sqliteHit : Option TraceRecord :=
    if r.use_sqlite then
      match r.conn with
      | some tbl => List.lookup tid tbl.rows
      | none => none
    else none
  match sqliteHit with
  | some r1 => .ok r1
  | none =>
    match List.lookup tid files with
    | some r2 => .ok r2
    | none => .error (.attributeError "_db")

/-! ### src/core/trace_logger.py -/

/-- The `NodeStatus` enum: execution status of a node. -/
inductive NodeStatus where
  | success
  | failure
  | interrupted
  | validation_error
deriving DecidableEq

/-- The string value of each `NodeStatus` member. -/
def NodeStatus.value : NodeStatus → String
  | .success => "success"
  | .failure => "failure"
  | .interrupted => "interrupted"
  | .validation_error => "validation_error"

/-! ### src/core/node_interface.py — the `asda_node` decorator

Decoration-time checks inspect the function signature; we model the
relevant Python classes and annotations concretely. -/

/-- The Python classes relevant to the `issubclass` checks of the decorator. -/
inductive PyClassD where
  | baseInputSchema
  | baseOutputSchema
  | myInput
  | myOutput
  | strClass
  | intClass
deriving DecidableEq

/-- `issubclass(c, BaseInputSchema)`. -/
def issubclassInput : PyClassD → Bool
  | .baseInputSchema => true
  | .myInput => true
  | _ => false

/-- `issubclass(c, BaseOutputSchema)`. -/
def issubclassOutput : PyClassD → Bool
  | .baseOutputSchema => true
  | .myOutput => true
  | _ => false

/-- A parameter or return annotation: absent (`inspect.Parameter.empty`),
present but not a `type` (a string or typing alias), or a class. -/
inductive PyAnn where
  | empty
  | notAType
  | cls (c : PyClassD)
deriving DecidableEq

/-- One function parameter, as seen by `inspect.signature`. -/
structure PyParam where
  ann : PyAnn
deriving DecidableEq

/-- A function signature: parameters in order, plus the return annotation. -/
structure PySig where
  params : List PyParam
  ret : PyAnn
deriving DecidableEq

/-- The decorator scan over `sig.parameters`: the first parameter whose
annotation is a `type` subclassing `BaseInputSchema` (the loop breaks at
the first hit). -/
def findInputSchemaType : List PyParam → Option PyClassD
  | [] => none
  | p :: ps =>
    match p.ann with
    | .cls c => if issubclassInput c then some c else findInputSchemaType ps
    | _ => findInputSchemaType ps

/-- The decoration-time checks of `asda_node` (source lines 66-83): fail
with `TypeError` when no parameter is annotated with a subclass of
`BaseInputSchema`, or when the return annotation is not a subclass of
`BaseOutputSchema`; otherwise return the extracted schema types.  (The
source interpolates the node name into the messages, in single quotes;
the quoting is elided here.) -/
def decorate (sig : PySig) : Except PyErr (PyClassD × PyClassD) :=
  match findInputSchemaType sig.params with
  | none => .error (.typeError "Node must have an input parameter annotated with a subclass of BaseInputSchema.")
  | some inT =>
    match sig.ret with
    | .cls c =>
      if issubclassOutput c then .ok (inT, c)
      else .error (.typeError "Node must have a return type annotation that is a subclass of BaseOutputSchema.")
    | _ => .error (.typeError "Node must have a return type annotation that is a subclass of BaseOutputSchema.")

/-! ### src/core/node_interface.py — the wrapper around each invocation

A pydantic model instance is embedded as an association list of field
name/value pairs in declaration order (this is the order
`model_dump_json()` serializes).  A schema type is its declared field
list plus its constructor `validate` (the effect of
`schema_type(**kwargs)`: `.ok` with the instance, or `.error` with the
`ValidationError` message). -/
structure SchemaType where
  fields : List String
  validate : List (String × JVal) → Except String (List (String × JVal))

/-- `BaseOutputSchema.model_fields.keys()`. -/
def baseOutputFields : List String := ["execution_timestamp", "node_meta"]

/-- A Python value passed to or returned from a node body: a dict, a
`BaseInputSchema` instance, a `BaseOutputSchema` instance, or anything
else. -/
inductive PyVal where
  | dict (kvs : List (String × JVal))
  | inSchema (inst : List (String × JVal))
  | outSchema (inst : List (String × JVal))
  | otherVal (v : JVal)

/-- Outcome of invoking the node body `func(input_schema)`: it may raise
a pydantic `ValidationError`, raise any other exception, or return. -/
inductive BodyResult where
  | raisesValidation (msg : String)
  | raises (msg : String)
  | ret (v : PyVal)

/-- Decorator configuration (`asda_node(name, version, tags, capture_io)`). -/
structure NodeCfg where
  name : String
  version : String
  tags : List String
  capture_io : Bool

/-- `trace_logger.TraceEvent` — the validated pydantic model the
wrapper imports: `span_id` is declared required with no default,
`status` is typed by the `NodeStatus` enum, and `governance_tags` is a
list of strings.  (`timestamp` is a wall-clock default, modelled as a
`Nat`.) -/
structure TraceEventV where
  trace_id : String
  span_id : String
  node_name : String
  version : String
  status : NodeStatus
  timestamp : Nat := 0
  runtime_ms : Nat
  input_hash : Option String := none
  output_hash : Option String := none
  error_message : Option String := none
  governance_tags : List String := []
deriving DecidableEq

/-- The keyword arguments the wrapper passes to `TraceEvent(...)`
(node_interface.py lines 135-145): there is no `span_id` among them,
`error_msg` is a keyword `TraceEvent` does not declare (it declares
`error_message`), the status is the plain string local of the wrapper,
and `governance_tags` is a comma-joined str where `List[str]` is
required. -/
structure WrapperEventKwargs where
  trace_id : String
  node_name : String
  version : String
  input_hash : Option String
  output_hash : Option String
  runtime_ms : Nat
  status : String
  error_msg : Option String
  governance_tags : String
deriving DecidableEq

/-- `input_schema.trace_id` — every `BaseInputSchema` instance has a
string `trace_id` field. -/
def instTraceId (inst : List (String × JVal)) : String :=
  match List.lookup "trace_id" inst with
  | some (.str s) => s
  | _ => ""

/-- The value handed to the single-field fallback construction when the
return of the body is neither dict nor `BaseOutputSchema`. -/
def fallbackVal : PyVal → JVal
  | .dict kvs => .obj kvs
  | .inSchema inst => .obj inst
  | .outSchema inst => .obj inst
  | .otherVal v => v

/-- The status the `except` clauses of the wrapper assign: pydantic
`ValidationError` first, then any other exception. -/
def statusOfExc : PyErr → String
  | .validationError _ => "validation_error"
  | _ => "execution_error"

/-- Output handling, source lines 107-118: a dict is validated through
the output schema constructor; a `BaseOutputSchema` instance is accepted
as is; anything else is assigned to the first declared field outside the
base output fields, or raises `TypeError` when no such field exists. -/
def coerceOutput (outT : SchemaType) (v : PyVal) :
    Except PyErr (List (String × JVal)) :=
  match v with
  | .dict kvs => (outT.validate kvs).mapError .validationError
  | .outSchema inst => .ok inst
  | v1 =>
    match outT.fields.find? (fun f => !(baseOutputFields.contains f)) with
    | some t => (outT.validate [(t, fallbackVal v1)]).mapError .validationError
    | none => .error (.typeError "Cannot automatically assign output to any field in the output schema.")

/-- The `try` body of the wrapper: resolve and validate the input
(source lines 95-101), invoke the body, coerce the output.  Returns the
materialized input instance, the output instance, and the pending
exception, exactly the three locals (`input_schema`, `output_schema`,
and the raised error) live when the `finally` block runs. -/
def wrapperCore (cfg : NodeCfg) (inT outT : SchemaType)
    (bodyF : List (String × JVal) → BodyResult) (inputData : PyVal) :
    Option (List (String × JVal)) × Option (List (String × JVal)) × Option PyErr :=
  let inputRes : Except PyErr (List (String × JVal)) :=
    match inputData with
    | .dict kvs => (inT.validate kvs).mapError .validationError
    | .inSchema inst => .ok inst
    | _ => .error (.typeError ("Invalid input type for node " ++ cfg.name ++ ". Expected a dictionary or BaseInputSchema subclass."))
  match inputRes with
  | .error e => (none, none, some e)
  | .ok inst =>
    match bodyF inst with
    | .raisesValidation m => (some inst, none, some (.validationError m))
    | .raises m => (some inst, none, some (.exception m))
    | .ret v =>
      match coerceOutput outT v with
      | .error e => (some inst, none, some e)
      | .ok outInst => (some inst, some outInst, none)

/-- The string values of the `NodeStatus` members, against which
pydantic validates a status string. -/
def nodeStatusValues : List String :=
  [NodeStatus.success.value, NodeStatus.failure.value,
   NodeStatus.interrupted.value, NodeStatus.validation_error.value]

/-- The field errors pydantic collects for `TraceEvent(**kwargs)` as
the wrapper calls it, in field declaration order: `span_id` is required
and never among the kwargs; a status string outside the `NodeStatus`
values is rejected; `governance_tags` receives a str where `List[str]`
is required (pydantic does not coerce a str to a list).  The unknown
`error_msg` keyword is ignored (the pydantic default for extra
fields).  Message texts are abridged from the pydantic originals. -/
def traceEventValidationErrors (kw : WrapperEventKwargs) : List String :=
  ["span_id: Field required"] ++
  (if nodeStatusValues.contains kw.status then [] else ["status: Input should be a valid NodeStatus"]) ++
  ["governance_tags: Input should be a valid list"]

/-- `TraceEvent(**kwargs)` as called in the `finally` block: pydantic
raises `ValidationError` listing the collected field errors.  Because
`span_id` is always absent from the wrapper call, the error list is
never empty and construction always fails; no `TraceEvent` value is
ever produced. -/
def traceEventCtorFromWrapper (kw : WrapperEventKwargs) : Except PyErr TraceEventV :=
  .error (.validationError (String.intercalate "; " (traceEventValidationErrors kw)))

/-- The locals of the `finally` block (source lines 130-145): the hex
SHA-256 of `model_dump_json()` of the in-scope input/output instances
(pydantic serialization: declaration-order keys), the trace id from the
input instance (or a fresh UUID when no input was materialized), the
status string — `success` or whatever the matching `except` clause
assigned — and the comma-joined tags, bundled as the keyword arguments
of the `TraceEvent(...)` call. -/
def wrapperKwargs (cfg : NodeCfg)
    (r : Option (List (String × JVal)) × Option (List (String × JVal)) × Option PyErr)
    (freshId : String) (runtime : Nat) : WrapperEventKwargs :=
  { trace_id := match r.1 with | some i => instTraceId i | none => freshId
    node_name := cfg.name
    version := cfg.version
    input_hash := r.1.map (fun i => sha256hex (strBytes (serJVal (.obj i))))
    output_hash := r.2.1.map (fun o => sha256hex (strBytes (serJVal (.obj o))))
    runtime_ms := runtime
    status := match r.2.2 with | none => "success" | some e => statusOfExc e
    error_msg := r.2.2.map PyErr.msg
    governance_tags := String.intercalate "," cfg.tags }

/-- `NodeMeta` attached to the output after hashing (source lines
148-156): `runtime_timestamp` is the start time of the invocation. -/
def nodeMetaObj (cfg : NodeCfg) (replayTraceId : Option String) (startTime : Nat) : JVal :=
  .obj [("node_name", .str cfg.name), ("version", .str cfg.version),
        ("tags", .arr (cfg.tags.map .str)),
        ("replay_trace_id", match replayTraceId with | some s => .str s | none => .null),
        ("runtime_timestamp", .num (startTime : Int))]

/-- Result of one wrapped invocation: the value returned or the
exception propagated to the caller, plus the trace events actually
delivered to the logger (none — see `wrapperRun`). -/
structure WrapOutcome where
  result : Except PyErr (List (String × JVal))
  events : List TraceEventV

/-- One invocation of an `asda_node`-wrapped function (source lines
86-158), supposing the module importable at all (the module-level
`TraceLogger(sink=...)` call at line 16 is itself a `TypeError` against
`TraceLogger.__init__(self, sinks)`).  Run the try body; then, when
`capture_io` is set, the `finally` block computes the hash locals and
calls `TraceEvent(...)`, which always raises `ValidationError`
(`span_id` missing, `governance_tags` a str) — by Python `finally`
semantics that exception replaces any pending exception and discards
any return value, so the caller always sees it; the subsequent
`trace_logger.log(...)` (no such method — `TraceLogger` defines
`log_event`) would raise `AttributeError` even if construction
succeeded, so nothing is ever emitted, and the `node_meta` attachment
of lines 148-158 never runs.  Only with `capture_io=False` does the
wrapper attach `node_meta` and return the output, or re-raise the
pending exception. -/
def wrapperRun (cfg : NodeCfg) (inT outT : SchemaType)
    (bodyF : List (String × JVal) → BodyResult)
    (freshId : String) (startTime runtime : Nat) (inputData : PyVal) : WrapOutcome :=
  let r := wrapperCore cfg inT outT bodyF inputData
  if cfg.capture_io then
    match traceEventCtorFromWrapper (wrapperKwargs cfg r freshId runtime) with
    | .error e => { result := .error e, events := [] }
    | .ok _ => { result := .error (.attributeError "log"), events := [] }
  else
    { result :=
        match r.2.2 with
        | some e => .error e
        | none =>
          .ok (setAssoc (r.2.1.getD []) "node_meta"
                (nodeMetaObj cfg (r.1.map instTraceId) startTime))
      events := [] }

/-! ### src/core/dag_engine.py -/

/-- `DAGState`: the state threaded through the default DAG.  The
optional `context` field stays `None` in every modelled flow and is
omitted from the structure (it reappears as `null` in the rendered
output dict). -/
structure DAGState where
  initial_input : JVal
  node_outputs : List (String × JVal)
  trace_id : String
  is_replay : Bool
  replay_data : List (String × JVal)

/-- Python `d.get(k, "")` on the dict-valued `initial_input` (every
modelled flow passes a dict here; a non-dict would raise
`AttributeError` in the source). -/
def dictGet (j : JVal) (k : String) : JVal :=
  match j with
  | .obj kvs => (List.lookup k kvs).getD (.str "")
  | _ => .str ""

/-- Python `str()` as used by the f-strings of the default nodes (only
strings and numbers flow through them). -/
def pyStr : JVal → String
  | .str s => s
  | .num n => toString n
  | .bool true => "True"
  | .bool false => "False"
  | .null => "None"
  | v => serJVal v

/-- `_retriever_node`. -/
def retriever_node (s : DAGState) : DAGState :=
  let query := dictGet s.initial_input "query"
  { s with
    node_outputs := setAssoc s.node_outputs "retriever_node"
      (.obj [("documents", .arr [.str ("Document for: " ++ pyStr query)])])
    initial_input := .obj [("prompt", query)] }

/-- `_llm_inference_node`. -/
def llm_inference_node (s : DAGState) : DAGState :=
  let prompt := dictGet s.initial_input "prompt"
  { s with
    node_outputs := setAssoc s.node_outputs "llm_inference_node"
      (.obj [("response", .str ("Response to: " ++ pyStr prompt))])
    initial_input := .obj [("action", prompt)] }

/-- `_executor_node`. -/
def executor_node (s : DAGState) : DAGState :=
  let action := dictGet s.initial_input "action"
  { s with
    node_outputs := setAssoc s.node_outputs "executor_node"
      (.obj [("result", .str ("Executed: " ++ pyStr action))]) }

/-- `build_default_dag().build().invoke({"initial_input": input,
"trace_id": tid})`: the compiled graph is the linear chain
retriever_node → llm_inference_node → executor_node → END, run
sequentially over a state whose remaining fields take their declared
defaults. -/
def invokeDefaultDag (input : JVal) (tid : String) : DAGState :=
  executor_node (llm_inference_node (retriever_node
    { initial_input := input, node_outputs := [], trace_id := tid,
      is_replay := false, replay_data := [] }))

/-- The dict langgraph `invoke` returns (all state channels), which
`_run_dag` stores as `dag_output` and records as the `__result__`
output. -/
def dagStateToJ (s : DAGState) : JVal :=
  .obj [("initial_input", s.initial_input), ("node_outputs", .obj s.node_outputs),
        ("context", .null), ("trace_id", .str s.trace_id),
        ("is_replay", .bool s.is_replay), ("replay_data", .obj s.replay_data)]

/-! ### src/core/orchestrator_api.py -/

/-- `TaskSubmission` (replay_mode and execution_params keep their
defaults in every modelled flow).  `input_context` is typed
`Dict[str, Any]`. -/
structure TaskSubmissionE where
  task_name : String
  input_context : List (String × JVal)

/-- `TaskResult`, the in-memory task-table entry. -/
structure TaskResultE where
  trace_id : String
  status : String
  output : Option JVal := none
  error : Option String := none
  dag_output : Option DAGState := none
  trace_summary : Option String := none

/-- The orchestrator process state: the `_tasks` table, the global
`_replay.replay_writer` current record, and its backing store. -/
structure Orch where
  tasks : List (String × TaskResultE)
  writerCur : Option TraceRecord
  store : ReplayStore

/-- `_run_dag(trace_id, task)`: insert `running`, open a trace, reject
any task other than `default_asda_flow` (`ValueError`, message
`Task <name> not found` — the source wraps the name in single quotes,
elided here), else run the default DAG, mark `completed` with the DAG
output, record the single `__result__` node, and in all cases finalize
the trace (`finTime` is the wall clock at finalization). -/
def runDagWorker (o : Orch) (tid : String) (task : TaskSubmissionE) (finTime : Nat) : Orch :=
  let running : TaskResultE := { trace_id := tid, status := "running" }
  let o1 : Orch := { o with tasks := setAssoc o.tasks tid running }
  let cur := (init_trace o1.writerCur (some tid) tid task.task_name 0).2
  if task.task_name ≠ "default_asda_flow" then
    match finalize_trace cur o1.store finTime with
    | .ok (_, cur2, store2) =>
      let failed : TaskResultE :=
        { running with
          status := "failed"
          error := some ("Task " ++ task.task_name ++ " not found") }
      { tasks := setAssoc o1.tasks tid failed, writerCur := cur2, store := store2 }
    | .error _ => o1
  else
    let output := invokeDefaultDag (.obj task.input_context) tid
    let completed : TaskResultE :=
      { running with
        status := "completed"
        dag_output := some output }
    match record_node_output cur "__result__" (.obj task.input_context)
        (some (dagStateToJ output)) "1.0" "success" none none with
    | .ok cur2 =>
      match finalize_trace cur2 o1.store finTime with
      | .ok (_, cur3, store3) =>
        { tasks := setAssoc o1.tasks tid completed, writerCur := cur3, store := store3 }
      | .error _ => o1
    | .error _ => o1

/-- `POST /run`: insert a `running` entry under a fresh trace id and
hand `_run_dag` to the worker pool; returns the response body, the new
state, and the pending background job. -/
def run_task (o : Orch) (freshTid : String) (task : TaskSubmissionE) :
    TaskResultE × Orch × (String × TaskSubmissionE) :=
  let result : TaskResultE := { trace_id := freshTid, status := "running" }
  (result, { o with tasks := setAssoc o.tasks freshTid result }, (freshTid, task))

/-- `GET /status/{trace_id}`: the table entry, or a fresh
`status="unknown"` result — the handler always returns a body (HTTP
200), never an error. -/
def get_status (o : Orch) (tid : String) : TaskResultE :=
  (List.lookup tid o.tasks).getD { trace_id := tid, status := "unknown" }

/-- `GET /result/{trace_id}`: same lookup as `get_status`. -/
def get_result (o : Orch) (tid : String) : TaskResultE :=
  (List.lookup tid o.tasks).getD { trace_id := tid, status := "unknown" }

/-- The module-level `_replay.replay_reader = ReplayReader(store="data/replays")`:
`use_sqlite` defaults to `False`, so `_conn` stays `None`. -/
def defaultReader : ReplayReaderS := { use_sqlite := false, conn := none }

/-- `GET /replay/{trace_id}`: load the stored record (an exception here
propagates out of the handler — there is no handler converting it to an
HTTP 404), build a fresh submission from the input of the first
recorded node, insert a `running` entry under a new id, and enqueue `_run_dag`
as a background task. -/
def replay_endpoint (o : Orch) (tid freshTid : String) :
    Except PyErr (TaskResultE × Orch × (String × TaskSubmissionE)) :=
  match loadTrace defaultReader o.store.files tid with
  | .error e => .error e
  | .ok stored =>
    match stored.executed_nodes.head? with
    | none => .error (.indexError "list index out of range")
    | some first =>
      match first.input with
      | .obj kvs =>
        let result : TaskResultE := { trace_id := freshTid, status := "running" }
        .ok (result, { o with tasks := setAssoc o.tasks freshTid result },
             (freshTid, { task_name := stored.task_name, input_context := kvs }))
      | _ => .error (.validationError "input_context: value is not a valid dict")

/-! ### Concrete scenario instances used by the claim theorems -/

/-- A fresh orchestrator process: empty task table, no active trace,
empty store. -/
def emptyOrch : Orch := { tasks := [], writerCur := none, store := { files := [], tinydb := [] } }

/-- The S1 submission with a given query string. -/
def defaultTask (q : String) : TaskSubmissionE :=
  { task_name := "default_asda_flow", input_context := [("query", .str q)] }

/-- The submission the spec scenario S1 describes: task name `default`. -/
def specTask : TaskSubmissionE :=
  { task_name := "default", input_context := [("query", .str "hi")] }

/-- Submitting `specTask` and letting the background worker run. -/
def c2done : Orch := runDagWorker (run_task emptyOrch "T1" specTask).2.1 "T1" specTask 5

/-- A completed `default_asda_flow` run under trace id T1. -/
def c1done : Orch := runDagWorker (run_task emptyOrch "T1" (defaultTask "hi")).2.1 "T1" (defaultTask "hi") 5

/-- Replaying T1 into T2 and letting the background worker run. -/
def c1afterReplay : Orch :=
  match replay_endpoint c1done "T1" "T2" with
  | .ok (_, o2, job) => runDagWorker o2 job.1 job.2 9
  | .error _ => c1done

/-- A writer handle on which `init_trace` has been called. -/
def c3cur : Option TraceRecord := (init_trace none (some "T") "T" "demo" 0).2

/-- First `init_trace` on a fresh handle. -/
def c4first : String × Option TraceRecord := init_trace none (some "A") "A" "task1" 0

/-- Second `init_trace` on the same handle, without an intervening finalize. -/
def c4second : String × Option TraceRecord := init_trace c4first.2 (some "B") "B" "task2" 1

/-- The constructor of `BaseInputSchema` itself with both fields
supplied: the instance keeps the declaration order
`trace_id, context_tags` regardless of keyword order (pydantic default
factories for omitted fields are not modelled — the claims always
supply both fields). -/
def baseInputSchemaT : SchemaType :=
  { fields := ["trace_id", "context_tags"]
    validate := fun kvs =>
      match List.lookup "trace_id" kvs, List.lookup "context_tags" kvs with
      | some (.str t), some (.arr tags) => .ok [("trace_id", .str t), ("context_tags", .arr tags)]
      | _, _ => .error "validation error for BaseInputSchema" }

/-- The `MyOutput` schema of the unit tests: one extra field `result`
after the inherited base fields; the `execution_timestamp` default is a
fixed representative value (wall clock not modelled). -/
def myOutputT : SchemaType :=
  { fields := ["execution_timestamp", "node_meta", "result"]
    validate := fun kvs =>
      match List.lookup "result" kvs with
      | some v => .ok [("execution_timestamp", .str "1970-01-01T00:00:00+00:00"), ("node_meta", .null), ("result", v)]
      | none => .error "1 validation error for MyOutput: result Field required" }

/-- An output schema declaring no field beyond the inherited base
fields. -/
def bareOutputT : SchemaType :=
  { fields := ["execution_timestamp", "node_meta"]
    validate := fun _ => .ok [("execution_timestamp", .str "1970-01-01T00:00:00+00:00"), ("node_meta", .null)] }

/-- The decorator configuration of the unit-test node. -/
def c6cfg : NodeCfg := { name := "my_test_node", version := "v1.1", tags := ["test"], capture_io := true }

/-- A concrete validated input instance. -/
def c6inst : List (String × JVal) := [("trace_id", .str "t"), ("context_tags", .arr [])]

/-- A concrete output-schema instance returned by a node body. -/
def c6out : List (String × JVal) :=
  [("execution_timestamp", .str "1970-01-01T00:00:00+00:00"), ("node_meta", .null), ("result", .num 15)]

/-- A body returning a `BaseOutputSchema` instance. -/
def c6body : List (String × JVal) → BodyResult := fun _ => .ret (.outSchema c6out)

/-- A body that raises a plain exception. -/
def c7body : List (String × JVal) → BodyResult := fun _ => .raises "boom"

/-- The finally-block kwargs of a captured invocation whose body
succeeds. -/
def c6kw : WrapperEventKwargs :=
  wrapperKwargs c6cfg (wrapperCore c6cfg baseInputSchemaT myOutputT c6body (.dict c6inst)) "u" 1

/-- The finally-block kwargs of a captured invocation whose body
raises. -/
def c7kw : WrapperEventKwargs :=
  wrapperKwargs c6cfg (wrapperCore c6cfg baseInputSchemaT myOutputT c7body (.dict c6inst)) "u" 1

/-- A body returning a bare value (neither dict nor schema instance). -/
def c10body : List (String × JVal) → BodyResult := fun _ => .ret (.otherVal (.num 15))

/-- The claim-side reading of a parameter annotated with a subclass of
`BaseInputSchema`. -/
def paramAnnIsInputSub (p : PyParam) : Bool :=
  match p.ann with
  | .cls c => issubclassInput c
  | _ => false

/-- The claim-side reading of a return annotation that is a subclass of
`BaseOutputSchema`. -/
def retAnnIsOutputSub (a : PyAnn) : Bool :=
  match a with
  | .cls c => issubclassOutput c
  | _ => false

/-! ### Helper lemmas -/

theorem lookup_setAssoc_self {α : Type} (l : List (String × α)) (k : String) (v : α) :
    List.lookup k (setAssoc l k v) = some v := by
  induction l with
  | nil => simp [setAssoc, List.lookup]
  | cons p rest ih =>
    obtain ⟨k1, v1⟩ := p
    by_cases h : k1 = k
    · subst h; simp [setAssoc, List.lookup]
    · simp only [setAssoc, if_neg h, List.lookup]
      rw [beq_eq_false_iff_ne.mpr (Ne.symm h)]
      exact ih

theorem statusOfExc_mem (e : PyErr) :
    statusOfExc e = "validation_error" ∨ statusOfExc e = "execution_error" := by
  cases e <;> simp [statusOfExc]

theorem wrapperCore_input (cfg : NodeCfg) (inT outT : SchemaType)
    (bodyF : List (String × JVal) → BodyResult)
    (kvs inst : List (String × JVal)) (hin : inT.validate kvs = .ok inst) :
    (wrapperCore cfg inT outT bodyF (.dict kvs)).1 = some inst := by
  simp only [wrapperCore]
  rw [hin]
  rcases hb : bodyF inst with m | m | v
  · simp [Except.mapError, hb]
  · simp [Except.mapError, hb]
  · rcases hc : coerceOutput outT v with e | outInst <;> simp [Except.mapError, hb, hc]

theorem findInput_isSome_eq_any (ps : List PyParam) :
    (findInputSchemaType ps).isSome = ps.any paramAnnIsInputSub := by
  induction ps with
  | nil => rfl
  | cons p rest ih =>
    cases hp : p.ann with
    | cls c =>
      by_cases hc : issubclassInput c
      · simp [findInputSchemaType, hp, paramAnnIsInputSub, hc]
      · simp [findInputSchemaType, hp, paramAnnIsInputSub, hc, ih]
    | empty => simp [findInputSchemaType, hp, paramAnnIsInputSub, ih]
    | notAType => simp [findInputSchemaType, hp, paramAnnIsInputSub, ih]

/-! ### Claim theorems -/

/-- C1 (counterexample): replaying the completed 3-node default run T1
does not yield three `skipped_replay` node executions — the replay run
T2 records exactly one executed node, with status `success`. -/
theorem C1_counterexample :
    ((List.lookup "T2" c1afterReplay.store.files).map
      (fun r => r.executed_nodes.map (fun n => n.status))) = some ["success"] ∧
    ((List.lookup "T2" c1afterReplay.store.files).map
      (fun r => r.executed_nodes.map (fun n => n.status)))
      ≠ some ["skipped_replay", "skipped_replay", "skipped_replay"] := by
  decide

/-- C1 (amended): a replay run is not short-circuited.  The replay
endpoint re-submits the first recorded input of the original run to
`_run_dag`, which re-executes every node body of the default DAG; the
replay trace records a single `__result__` entry with status `success`
(no `skipped_replay` status exists in the code), and the replay
`dag_output` equals a full re-execution of the DAG. -/
theorem C1_replay_reexecutes_fully (o : Orch) (q t1 t2 : String) (tA tB : Nat) :
    (match replay_endpoint (runDagWorker (run_task o t1 (defaultTask q)).2.1 t1 (defaultTask q) tA) t1 t2 with
     | .ok (res, o2, job) =>
       res.status = "running" ∧ job = (t2, defaultTask q) ∧
       ((List.lookup t2 ((runDagWorker o2 job.1 job.2 tB).store.files)).map
         (fun r => r.executed_nodes.map (fun n => (n.node_name, n.status)))) = some [("__result__", "success")] ∧
       (get_status (runDagWorker o2 job.1 job.2 tB) t2).dag_output
         = some (invokeDefaultDag (.obj [("query", .str q)]) t2)
     | .error _ => False) := by
  simp only [runDagWorker, run_task, defaultTask, init_trace, Option.getD]
  norm_num
  simp only [record_node_output, finalize_trace, replay_endpoint, loadTrace, defaultReader]
  simp only [lookup_setAssoc_self]
  simp only [List.head?]
  norm_num
  constructor
  · exact ⟨_, lookup_setAssoc_self _ _ _, rfl⟩
  · simp only [get_status, lookup_setAssoc_self]
    rfl

/-- C2 (counterexample): submitting the spec scenario task
`{task_name: "default", input_context: {query: "hi"}}` does not
complete: `_run_dag` only accepts the task name `default_asda_flow`, so
the run fails with a not-found error. -/
theorem C2_counterexample :
    (get_status (run_task emptyOrch "T1" specTask).2.1 "T1").status = "running" ∧
    (get_status c2done "T1").status = "failed" ∧
    (get_status c2done "T1").status ≠ "completed" ∧
    (get_status c2done "T1").error = some "Task default not found" := by
  decide

/-- C2 (amended): submitting the task under its accepted name
`default_asda_flow` with `{query: q}` gives a run whose status
transitions `running → completed`, whose `dag_output` carries
`node_outputs.executor_node.result = "Executed: " ++ q` (not
`dag_output.executor.result`), and whose trace record contains exactly
one `executed_nodes` entry, the `__result__` summary node. -/
theorem C2_default_asda_flow_runs (o : Orch) (tid q : String) (tFin : Nat) :
    (get_status (run_task o tid (defaultTask q)).2.1 tid).status = "running" ∧
    (get_status (runDagWorker (run_task o tid (defaultTask q)).2.1 tid (defaultTask q) tFin) tid).status = "completed" ∧
    ((get_status (runDagWorker (run_task o tid (defaultTask q)).2.1 tid (defaultTask q) tFin) tid).dag_output.map
      (fun s => List.lookup "executor_node" s.node_outputs))
      = some (some (.obj [("result", .str ("Executed: " ++ q))])) ∧
    ((List.lookup tid (runDagWorker (run_task o tid (defaultTask q)).2.1 tid (defaultTask q) tFin).store.files).map
      (fun r => r.executed_nodes.map (fun n => (n.node_name, n.status)))) = some [("__result__", "success")] := by
  simp only [runDagWorker, run_task, defaultTask, init_trace, Option.getD]
  norm_num
  simp only [record_node_output, finalize_trace, get_status]
  refine ⟨?_, ?_, ?_, ?_⟩
  · rw [lookup_setAssoc_self]
    rfl
  · rw [lookup_setAssoc_self]
    rfl
  · rw [lookup_setAssoc_self]
    exact ⟨_, rfl, rfl⟩
  · rw [lookup_setAssoc_self]
    exact ⟨_, rfl, rfl⟩

/-- C3 (counterexample): `finalize_trace` is not idempotent.  After a
first finalize (which does set `end_time`, write the record and return
it), the handle is cleared, and a second call without an intervening
`init_trace` raises `RuntimeError` instead of being a no-op returning
the same record. -/
theorem C3_counterexample :
    (match finalize_trace c3cur { files := [], tinydb := [] } 7 with
     | .ok (r, cur2, store2) =>
       r.end_time = some 7 ∧ cur2 = none ∧
       finalize_trace cur2 store2 8 = .error (.runtimeError "init_trace must be called first")
     | .error _ => False) := by
  exact ⟨rfl, rfl, rfl⟩

/-- C3 (amended): on a handle with an open trace, finalize sets
`end_time`, writes the full record to the backing store (the record is
retrievable under its trace id), returns the record — and clears the
handle, so a second call without an intervening `init_trace` raises
`RuntimeError` rather than returning the same record. -/
theorem C3_finalize_writes_and_second_call_raises (r0 : TraceRecord) (store : ReplayStore) (t1 t2 : Nat) :
    finalize_trace (some r0) store t1 =
      .ok ({ r0 with end_time := some t1 }, none,
           { files := setAssoc store.files r0.trace_id { r0 with end_time := some t1 },
             tinydb := store.tinydb ++ [{ r0 with end_time := some t1 }] }) ∧
    List.lookup r0.trace_id (setAssoc store.files r0.trace_id { r0 with end_time := some t1 })
      = some { r0 with end_time := some t1 } ∧
    finalize_trace none
      { files := setAssoc store.files r0.trace_id { r0 with end_time := some t1 },
        tinydb := store.tinydb ++ [{ r0 with end_time := some t1 }] } t2
      = .error (.runtimeError "init_trace must be called first") :=
  ⟨rfl, lookup_setAssoc_self _ _ _, rfl⟩

/-- C4 (counterexample): calling `init_trace` a second time on the same
handle without an intervening finalize does not fail with any
`AlreadyActive` error — it succeeds, returns the new id, and silently
replaces the already-open trace. -/
theorem C4_counterexample :
    c4first.2 = some { trace_id := "A", task_name := "task1", start_time := 0 } ∧
    c4second = ("B", some { trace_id := "B", task_name := "task2", start_time := 1 }) :=
  ⟨rfl, rfl⟩

/-- C4 (amended): `init_trace` never fails: whatever trace is currently
open, it returns the requested (or fresh) id and replaces the current
record with a new one for that id. -/
theorem C4_init_trace_silently_replaces (cur : Option TraceRecord) (suppliedId : Option String)
    (freshUuid task2 : String) (tm2 : Nat) :
    init_trace cur suppliedId freshUuid task2 tm2
      = (suppliedId.getD freshUuid,
         some { trace_id := suppliedId.getD freshUuid, task_name := task2, start_time := tm2 }) :=
  rfl

/-- C5 (code bug): loading a trace id with no stored record does not
fail with the intended `FileNotFoundError`: `ReplayReader.__init__`
never assigns `_db`, so the fallback branch raises `AttributeError`
first, and the final `raise FileNotFoundError(trace_id)` is
unreachable; the `/replay` endpoint has no handler for either error, so
the exception propagates (an HTTP 500, not the specified 404). -/
theorem C5_load_missing_raises_attribute_error :
    loadTrace defaultReader [] "does-not-exist" = .error (.attributeError "_db") ∧
    loadTrace defaultReader [] "does-not-exist" ≠ .error (.fileNotFound "does-not-exist") ∧
    replay_endpoint emptyOrch "does-not-exist" "T9" = .error (.attributeError "_db") := by
  refine ⟨rfl, ?_, rfl⟩
  simp [loadTrace, defaultReader]

set_option maxRecDepth 100000 in
set_option maxRecDepth 100000 in
/-- C6 (counterexample): at a concrete captured invocation nothing is
recorded at all — the finally-block `TraceEvent(...)` construction
raises `ValidationError` (`span_id` required and never passed,
`governance_tags` a str), no event is emitted, and the caller sees that
error — and the `input_hash` local the wrapper computes into the
failing kwargs is the SHA-256 of the pydantic declaration-order
`model_dump_json()`, which differs from the SHA-256 of the canonical
key-sorted JSON of the same input (`BaseInputSchema` declares
`trace_id` before `context_tags`, the sorted order is the reverse). -/
theorem C6_counterexample :
    (wrapperRun c6cfg baseInputSchemaT myOutputT c6body "u" 0 1 (.dict c6inst)).events = [] ∧
    (wrapperRun c6cfg baseInputSchemaT myOutputT c6body "u" 0 1 (.dict c6inst)).result
      = .error (.validationError "span_id: Field required; governance_tags: Input should be a valid list") ∧
    c6kw.input_hash = some (sha256hex (strBytes (serJVal (.obj c6inst)))) ∧
    sha256hex (strBytes (serJVal (.obj c6inst))) ≠ sha256hex (strBytes (canonicalJson (.obj c6inst))) := by
  refine ⟨rfl, rfl, ?_, ?_⟩
  · decide
  · decide

/-- C6 (amended): with I/O capture enabled no hash is ever recorded:
the finally-block `TraceEvent` construction always raises
`ValidationError`, which the caller receives in place of any output or
pending exception, and no event reaches the logger.  The `input_hash`
local the wrapper computes (and passes in the failing kwargs) is the
hex SHA-256 digest of `model_dump_json()` of the materialized input
instance — pydantic serialization with keys in field declaration order,
not canonical key-sorted JSON. -/
theorem C6_input_hash_is_pydantic_dump_hash (cfg : NodeCfg) (inT outT : SchemaType)
    (bodyF : List (String × JVal) → BodyResult) (freshId : String) (st rt : Nat)
    (kvs inst : List (String × JVal))
    (hcap : cfg.capture_io = true) (hin : inT.validate kvs = .ok inst) :
    (wrapperKwargs cfg (wrapperCore cfg inT outT bodyF (.dict kvs)) freshId rt).input_hash
      = some (sha256hex (strBytes (serJVal (.obj inst)))) ∧
    (wrapperRun cfg inT outT bodyF freshId st rt (.dict kvs)).events = [] ∧
    (wrapperRun cfg inT outT bodyF freshId st rt (.dict kvs)).result
      = .error (.validationError (String.intercalate "; "
          (traceEventValidationErrors
            (wrapperKwargs cfg (wrapperCore cfg inT outT bodyF (.dict kvs)) freshId rt)))) := by
  refine ⟨?_, ?_, ?_⟩
  · simp only [wrapperKwargs]
    rw [wrapperCore_input cfg inT outT bodyF kvs inst hin]
    simp
  · simp [wrapperRun, hcap, traceEventCtorFromWrapper]
  · simp [wrapperRun, hcap, traceEventCtorFromWrapper]

/-- C6 witness: the amended statement at the concrete test-node
invocation. -/
theorem C6_input_hash_is_pydantic_dump_hash_witness :
    (wrapperKwargs c6cfg (wrapperCore c6cfg baseInputSchemaT myOutputT c6body (.dict c6inst)) "u" 1).input_hash
      = some (sha256hex (strBytes (serJVal (.obj c6inst)))) ∧
    (wrapperRun c6cfg baseInputSchemaT myOutputT c6body "u" 0 1 (.dict c6inst)).events = [] ∧
    (wrapperRun c6cfg baseInputSchemaT myOutputT c6body "u" 0 1 (.dict c6inst)).result
      = .error (.validationError (String.intercalate "; "
          (traceEventValidationErrors
            (wrapperKwargs c6cfg (wrapperCore c6cfg baseInputSchemaT myOutputT c6body (.dict c6inst)) "u" 1)))) :=
  C6_input_hash_is_pydantic_dump_hash c6cfg baseInputSchemaT myOutputT c6body "u" 0 1 c6inst c6inst rfl rfl

/-- C7 (counterexample): the status vocabulary is not the claimed set:
the `NodeStatus` member `interrupted` lies outside it, a raising body
makes the wrapper compute the status string `execution_error` — also
outside it — into the kwargs of its `TraceEvent(...)` call, and that
call fails, so the invocation emits no event at all. -/
theorem C7_counterexample :
    NodeStatus.interrupted.value = "interrupted" ∧
    "interrupted" ∉ (["success", "failure", "validation_error", "skipped_replay"] : List String) ∧
    c7kw.status = "execution_error" ∧
    "execution_error" ∉ (["success", "failure", "validation_error", "skipped_replay"] : List String) ∧
    (wrapperRun c6cfg baseInputSchemaT myOutputT c7body "u" 0 1 (.dict c6inst)).events = [] := by
  refine ⟨rfl, by decide, rfl, by decide, rfl⟩

/-- C7 (amended): the status string the wrapper computes for its
`TraceEvent(...)` call is drawn from `{success, validation_error,
execution_error}` (never `failure` or `skipped_replay`); that call
always fails, so no `TraceEvent` is ever emitted; and the `NodeStatus`
enum typing `TraceEvent.status` enumerates `{success, failure,
interrupted, validation_error}` — the value `skipped_replay` exists
nowhere. -/
theorem C7_emitted_status_set (cfg : NodeCfg) (inT outT : SchemaType)
    (bodyF : List (String × JVal) → BodyResult) (freshId : String) (st rt : Nat)
    (inputData : PyVal) :
    (wrapperKwargs cfg (wrapperCore cfg inT outT bodyF inputData) freshId rt).status
      ∈ (["success", "validation_error", "execution_error"] : List String) ∧
    (wrapperRun cfg inT outT bodyF freshId st rt inputData).events = [] ∧
    (∀ s : NodeStatus, s.value ∈ (["success", "failure", "interrupted", "validation_error"] : List String)) ∧
    (∀ s : NodeStatus, s.value ≠ "skipped_replay") := by
  refine ⟨?_, ?_, ?_, ?_⟩
  · simp only [wrapperKwargs]
    rcases hx : (wrapperCore cfg inT outT bodyF inputData).2.2 with _ | e
    · simp [hx]
    · simp only [hx]
      rcases statusOfExc_mem e with h | h <;> simp [h]
  · simp only [wrapperRun]
    split <;> rfl
  · intro s; cases s <;> simp [NodeStatus.value]
  · intro s; cases s <;> simp [NodeStatus.value]

/-- C8 (confirmed): for a trace id absent from the task table, the
status and result handlers both return a body carrying the requested id
and status `unknown`; the handlers are total — they always return a
`TaskResult` (HTTP 200), never an error. -/
theorem C8_unknown_trace_returns_unknown_with_200 (o : Orch) (tid : String)
    (h : List.lookup tid o.tasks = none) :
    get_status o tid = { trace_id := tid, status := "unknown" } ∧
    get_result o tid = { trace_id := tid, status := "unknown" } := by
  simp [get_status, get_result, h]

/-- C8 witness: the unknown-trace response at a concrete id on a fresh
orchestrator. -/
theorem C8_unknown_trace_returns_unknown_with_200_witness :
    get_status emptyOrch "does-not-exist" = { trace_id := "does-not-exist", status := "unknown" } ∧
    get_result emptyOrch "does-not-exist" = { trace_id := "does-not-exist", status := "unknown" } :=
  C8_unknown_trace_returns_unknown_with_200 emptyOrch "does-not-exist" rfl

/-- C9 (confirmed): decoration succeeds exactly when some parameter is
annotated with a subclass of `BaseInputSchema` and the return
annotation is a subclass of `BaseOutputSchema`; otherwise it fails, and
every decoration failure is a `TypeError` — raised before any
invocation, since the checks run at decoration time. -/
theorem C9_decorator_type_check (sig : PySig) :
    ((decorate sig).isOk = true ↔
      (sig.params.any paramAnnIsInputSub = true ∧ retAnnIsOutputSub sig.ret = true)) ∧
    ((decorate sig).isOk = true ∨ ∃ m, decorate sig = .error (.typeError m)) := by
  rcases hf : findInputSchemaType sig.params with _ | c
  · have hany : sig.params.any paramAnnIsInputSub = false := by
      rw [← findInput_isSome_eq_any, hf]; rfl
    constructor
    · simp [decorate, hf, hany, Except.isOk, Except.toBool]
    · exact Or.inr ⟨"Node must have an input parameter annotated with a subclass of BaseInputSchema.",
        by simp [decorate, hf]⟩
  · have hany : sig.params.any paramAnnIsInputSub = true := by
      rw [← findInput_isSome_eq_any, hf]; rfl
    rcases hr : sig.ret with _ | _ | c2
    · constructor
      · simp [decorate, hf, hr, hany, retAnnIsOutputSub, Except.isOk, Except.toBool]
      · exact Or.inr ⟨"Node must have a return type annotation that is a subclass of BaseOutputSchema.",
          by simp [decorate, hf, hr]⟩
    · constructor
      · simp [decorate, hf, hr, hany, retAnnIsOutputSub, Except.isOk, Except.toBool]
      · exact Or.inr ⟨"Node must have a return type annotation that is a subclass of BaseOutputSchema.",
          by simp [decorate, hf, hr]⟩
    · by_cases hc2 : issubclassOutput c2
      · constructor
        · simp [decorate, hf, hr, hany, retAnnIsOutputSub, hc2, Except.isOk, Except.toBool]
        · exact Or.inl (by simp [decorate, hf, hr, hc2, Except.isOk, Except.toBool])
      · constructor
        · simp [decorate, hf, hr, hany, retAnnIsOutputSub, hc2, Except.isOk, Except.toBool]
        · exact Or.inr ⟨"Node must have a return type annotation that is a subclass of BaseOutputSchema.",
            by simp [decorate, hf, hr, hc2]⟩

/-- C10 (counterexample): with I/O capture enabled (the decorator
default), a body returning the bare value 15 against a schema with the
extra field `result` does construct the output by single-field
assignment (second conjunct, the try-body step), but the invocation
never returns it: the finally-block `TraceEvent` construction raises
`ValidationError`, which the caller receives instead of the constructed
output. -/
theorem C10_counterexample :
    coerceOutput myOutputT (.otherVal (.num 15))
      = .ok [("execution_timestamp", .str "1970-01-01T00:00:00+00:00"), ("node_meta", .null), ("result", .num 15)] ∧
    (wrapperRun c6cfg baseInputSchemaT myOutputT c10body "u" 0 1 (.dict c6inst)).result
      = .error (.validationError "span_id: Field required; governance_tags: Input should be a valid list") ∧
    (∀ outInst, (wrapperRun c6cfg baseInputSchemaT myOutputT c10body "u" 0 1 (.dict c6inst)).result ≠ .ok outInst) := by
  refine ⟨rfl, rfl, ?_⟩
  intro outInst h
  rw [show (wrapperRun c6cfg baseInputSchemaT myOutputT c10body "u" 0 1 (.dict c6inst)).result
      = .error (.validationError "span_id: Field required; governance_tags: Input should be a valid list") from rfl] at h
  exact Except.noConfusion h

/-- C10 (amended): the construction step is as the claim describes —
the try body assigns the bare return value to the first declared field
outside the base output fields `execution_timestamp, node_meta`, or
raises `TypeError` (status local `execution_error`) when no such field
exists — but the constructed output is returned (with `node_meta`
attached) only when `capture_io` is disabled; with capture enabled
every invocation instead raises the finally-block `ValidationError`,
which masks both the output and, in the no-extra-field case, the
`TypeError`. -/
theorem C10_output_fallback_assignment (cfg : NodeCfg) (inT outT : SchemaType)
    (bodyF : List (String × JVal) → BodyResult) (freshId : String) (st rt : Nat)
    (kvs inst : List (String × JVal)) (v : JVal)
    (hin : inT.validate kvs = .ok inst)
    (hbody : bodyF inst = .ret (.otherVal v)) :
    coerceOutput outT (.otherVal v)
      = (match outT.fields.find? (fun f => !(baseOutputFields.contains f)) with
         | some t => (outT.validate [(t, v)]).mapError PyErr.validationError
         | none => .error (.typeError "Cannot automatically assign output to any field in the output schema.")) ∧
    (wrapperRun cfg inT outT bodyF freshId st rt (.dict kvs)).result =
      (if cfg.capture_io then
        .error (.validationError (String.intercalate "; "
          (traceEventValidationErrors
            (wrapperKwargs cfg (wrapperCore cfg inT outT bodyF (.dict kvs)) freshId rt))))
       else
        match outT.fields.find? (fun f => !(baseOutputFields.contains f)) with
        | some t =>
          match outT.validate [(t, v)] with
          | .ok outInst => .ok (setAssoc outInst "node_meta" (nodeMetaObj cfg (some (instTraceId inst)) st))
          | .error m => .error (.validationError m)
        | none => .error (.typeError "Cannot automatically assign output to any field in the output schema.")) ∧
    (outT.fields.find? (fun f => !(baseOutputFields.contains f)) = none →
      (wrapperKwargs cfg (wrapperCore cfg inT outT bodyF (.dict kvs)) freshId rt).status = "execution_error") := by
  refine ⟨?_, ?_, ?_⟩
  · rfl
  · rcases hc : cfg.capture_io with _ | _
    · simp only [wrapperRun, hc, Bool.false_eq_true, if_false]
      simp only [wrapperCore, coerceOutput]
      rw [hin]
      simp only [Except.mapError, hbody]
      rcases hf : outT.fields.find? (fun f => !(baseOutputFields.contains f)) with _ | t
      · simp [fallbackVal, hf]
      · rcases hv : outT.validate [(t, v)] with m | outInst <;> simp [fallbackVal, hf, hv, Except.mapError]
    · simp [wrapperRun, hc, traceEventCtorFromWrapper]
  · intro hnone
    simp only [wrapperKwargs, wrapperCore, coerceOutput]
    rw [hin]
    simp only [Except.mapError, hbody, fallbackVal, hnone]
    rfl

/-- C10 witness: the amended statement at the concrete invocation of a
captured node returning the bare value 15 against a schema with no
extra declared field. -/
theorem C10_output_fallback_assignment_witness :
    coerceOutput bareOutputT (.otherVal (.num 15))
      = (match bareOutputT.fields.find? (fun f => !(baseOutputFields.contains f)) with
         | some t => (bareOutputT.validate [(t, .num 15)]).mapError PyErr.validationError
         | none => .error (.typeError "Cannot automatically assign output to any field in the output schema.")) ∧
    (wrapperRun c6cfg baseInputSchemaT bareOutputT c10body "u" 0 1 (.dict c6inst)).result =
      (if c6cfg.capture_io then
        .error (.validationError (String.intercalate "; "
          (traceEventValidationErrors
            (wrapperKwargs c6cfg (wrapperCore c6cfg baseInputSchemaT bareOutputT c10body (.dict c6inst)) "u" 1))))
       else
        match bareOutputT.fields.find? (fun f => !(baseOutputFields.contains f)) with
        | some t =>
          match bareOutputT.validate [(t, .num 15)] with
          | .ok outInst => .ok (setAssoc outInst "node_meta" (nodeMetaObj c6cfg (some (instTraceId c6inst)) 0))
          | .error m => .error (.validationError m)
        | none => .error (.typeError "Cannot automatically assign output to any field in the output schema.")) ∧
    (bareOutputT.fields.find? (fun f => !(baseOutputFields.contains f)) = none →
      (wrapperKwargs c6cfg (wrapperCore c6cfg baseInputSchemaT bareOutputT c10body (.dict c6inst)) "u" 1).status = "execution_error") :=
  C10_output_fallback_assignment c6cfg baseInputSchemaT bareOutputT c10body "u" 0 1 c6inst c6inst (.num 15) rfl rfl

end Asda
